import Mathlib

/-!
Verification of the resilient extraction pipeline of `src/scraper.py`
(`NewsScraperProcessor`): the field extractor `_safe_find_element`, the
listing extraction and detail-page kicker recovery of
`_scrape_with_selenium`, the retry orchestrator `scrape_news`, and the
`Article` dataclass with its `__post_init__`.

The Selenium DOM is shallowly embedded: an element handle is a `Node`
carrying its text, an attribute map, and a `find` capability whose
outcome is found / not-found (`NoSuchElementException`) / fault (any
other exception).  Navigation and explicit waits are modelled by
environment records (`ListingEnv`, `DetailPage`) describing what the
browser would do at each URL.  Exceptions escaping a function are
modelled with `Except`; a caught exception is handled inside the
definition exactly where the Python `try`/`except` handles it.
-/

namespace Scraper

/-- The Selenium lookup kinds used by the source: `By.CLASS_NAME`,
`By.CSS_SELECTOR` and `By.TAG_NAME`. -/
inductive By where
  | className
  | cssSelector
  | tagName
deriving DecidableEq, Repr

mutual

/-- A DOM element handle: its rendered text (`element.text`), its
attributes (`element.get_attribute`, which may yield Python `None`,
modelled as `Option.none`), and its child lookup (`find_element`). -/
inductive Node : Type where
  | mk (text : String) (attr : String → Option String)
       (find : By → String → FindRes) : Node

/-- Outcome of a single `find_element` call: a found handle,
`NoSuchElementException`, or any other exception (stale handle,
dead session, ...). -/
inductive FindRes : Type where
  | found (e : Node)
  | notFound
  | fault

end

/-- Accessor for `element.text`. -/
def Node.text : Node → String
  | .mk t _ _ => t

/-- Accessor for `element.get_attribute name` (Python `None` is `Option.none`). -/
def Node.attr : Node → String → Option String
  | .mk _ a _ => a

/-- Accessor for `handle.find_element(by, value)`. -/
def Node.find : Node → By → String → FindRes
  | .mk _ _ f => f

/-- Drop leading whitespace characters. -/
def dropWs : List Char → List Char
  | [] => []
  | c :: cs => if c.isWhitespace then dropWs cs else c :: cs

/-- Model of the Python `str.strip()` call with no argument: remove leading and
trailing whitespace. -/
def pyStrip (s : String) : String :=
  ⟨(dropWs (dropWs s.data).reverse).reverse⟩

/-- Model of `_safe_find_element(container, by, value, default="")`, line 71:
inside a `try`, find the element and return `element.text.strip()` when
`by != By.TAG_NAME`, else `element.get_attribute("src")`; both
`NoSuchElementException` and any other exception are caught and yield
`default`.  The Python return value may be `None` (a missing `src`
attribute), hence `Option String`. -/
def safe_find_element (container : Node) (b : By) (v : String)
    (dflt : String) : Option String :=
  match container.find b v with
  | .found e => if b = By.tagName then e.attr "src" else some (pyStrip e.text)
  | .notFound => some dflt
  | .fault => some dflt

/-- Modelled from the spec (§4.1 Field Extractor), for comparison with
`safe_find_element`: "Looks up a single matching descendant; if found,
returns its trimmed text (or, for image-type lookups, its source-URL
attribute instead of text); if not found, returns `default` without
raising.  Any lookup failure other than not-found is logged and treated
identically to not-found." -/
def extractFieldSpec (container : Node) (b : By) (v : String)
    (dflt : String) : Option String :=
  match container.find b v with
  | .found e =>
      match b with
      | By.tagName => e.attr "src"
      | By.className => some (pyStrip e.text)
      | By.cssSelector => some (pyStrip e.text)
  | .notFound => some dflt
  | .fault => some dflt

/-- The container-scoped kicker selector list of lines 176-183. -/
def kicker_selectors : List (By × String) :=
  [(By.className, "volanta"),
   (By.className, "volanta fuente_roboto_slab"),
   (By.className, "volanta_noticia"),
   (By.className, "volanta_noticia fuente_roboto_slab"),
   (By.cssSelector, ".volanta_titulo .volanta"),
   (By.cssSelector, "div.volanta")]

/-- The page-scoped kicker selector list of lines 224-229. -/
def article_kicker_selectors : List (By × String) :=
  [(By.className, "volanta_noticia"),
   (By.className, "volanta_noticia fuente_roboto_slab"),
   (By.cssSelector, ".slot.contenido_fijo.titulo_de_noticia .volanta_noticia"),
   (By.cssSelector, ".titulo_de_noticia .volanta_noticia")]

/-- The kicker fallback scan (lines 185-193 over a container, lines
231-239 over a page): try each `(by, value)` in order inside a `try`
that catches only `NoSuchElementException`; the first found element
with non-empty stripped text wins (`break`); a found element whose
stripped text is empty falls through to the next selector; the scan of
the whole list without a winner leaves the kicker as it was, which at
both call sites is `""`.  A non-`NoSuchElementException` fault escapes
the inner `try` (`Except.error`): the surrounding per-item handler
then skips the item. -/
def scanKickers (find : By → String → FindRes) :
    List (By × String) → Except Unit String
  | [] => .ok ""
  | (b, v) :: rest =>
      match find b v with
      | .found e =>
          if pyStrip e.text = "" then scanKickers find rest
          else .ok (pyStrip e.text)
      | .notFound => scanKickers find rest
      | .fault => .error ()

/-- The per-item record built at lines 159-196 (`article_info`):
`link` and `image` come from `get_attribute` and may be Python `None`. -/
structure ArticleInfo where
  title : String
  link : Option String
  kicker : String
  image : Option String
deriving DecidableEq, Repr

/-- Python truthiness of an optional string (`None` and `""` are falsy). -/
def optTruthy : Option String → Bool
  | none => false
  | some s => s ≠ ""

/-- The string carried by a truthy optional link. -/
def linkStr : Option String → String
  | none => ""
  | some s => s

/-- One iteration of the listing loop, lines 157-200: resolve
title+link through the fixed nested lookup
`container.find_element(By.CLASS_NAME, "titulo").find_element(By.TAG_NAME, "a")`
(`NoSuchElementException` there means `continue`, i.e. skip the item);
skip when the stripped title is empty; then the container-scoped kicker
scan and the image via `safe_find_element`.  Any other exception inside
the iteration is caught by the outer `except Exception` at line 198 and
also skips the item.  `none` is a skipped item. -/
def extractItem (c : Node) : Option ArticleInfo :=
  match c.find By.className "titulo" with
  | .notFound => none
  | .fault => none
  | .found tEl =>
      match tEl.find By.tagName "a" with
      | .notFound => none
      | .fault => none
      | .found aEl =>
          if pyStrip aEl.text = "" then none
          else
            match scanKickers c.find kicker_selectors with
            | .error _ => none
            | .ok k =>
                some ⟨pyStrip aEl.text, aEl.attr "href", k,
                      safe_find_element c By.tagName "img" ""⟩

/-- The listing phase over all containers found at line 154. -/
def extractListing (containers : List Node) : List ArticleInfo :=
  containers.filterMap extractItem

/-- Outcome of `driver.get(url)`: success, `TimeoutException`, or
`WebDriverException` (carrying its message). -/
inductive NavRes where
  | ok
  | timeout
  | fault (msg : String)
deriving DecidableEq, Repr

/-- What the browser does at one article URL: the navigation outcome,
whether the `WebDriverWait` for `contenido_noticia` succeeds, and the
page handle used by the page-scoped `driver.find_element` calls. -/
structure DetailPage where
  nav : NavRes
  waitOk : Bool
  page : Node

/-- Lines 207-239, the recovery body once navigation is attempted:
`TimeoutException` or `WebDriverException` on `driver.get`, or a
timeout of the readiness wait, each executes `continue` — the item
yields no Article (`none`).  Otherwise the page-scoped kicker scan
runs; a fault inside it escapes to the handler at line 249 and also
skips the item; a winning non-empty text replaces the kicker. -/
def recoverOnPage (dp : DetailPage) (info : ArticleInfo) :
    Option ArticleInfo :=
  match dp.nav with
  | .timeout => none
  | .fault _ => none
  | .ok =>
      if dp.waitOk then
        match scanKickers dp.page.find article_kicker_selectors with
        | .error _ => none
        | .ok k =>
            some { info with kicker := if k = "" then info.kicker else k }
      else none

/-- One iteration of the second loop, lines 202-251, up to (but not
including) the `Article` construction: detail-page recovery runs
exactly under the truthiness guard of line 204 (kicker falsy and
link truthy); otherwise the record passes through
unchanged. -/
def processInfo (detail : String → DetailPage) (info : ArticleInfo) :
    Option ArticleInfo :=
  if info.kicker = "" ∧ optTruthy info.link = true then
    recoverOnPage (detail (linkStr info.link)) info
  else some info

/-- The `Article` dataclass of lines 26-36.  `scrape_date` is whatever
`__post_init__` stored. -/
structure Article where
  title : String
  kicker : String
  link : Option String
  image : Option String
  scrape_date : String
deriving DecidableEq, Repr

/-- Model of `Article(title=…, kicker=…, link=…, image=…)` construction:
the generated `__init__` stores the five fields (with `scrape_date`
defaulting to `None`, hence `Option String`), then `__post_init__`
runs `self.scrape_date = datetime.now().isoformat()`; `now` is the
clock reading at construction time. -/
def Article.make (now : String) (title kicker : String)
    (link image : Option String) (scrape_date_arg : Option String) :
    Article :=
  let _ := scrape_date_arg
  ⟨title, kicker, link, image, now⟩

/-- Lines 202-251 applied to one `article_info`: recovery (when the
guard holds) followed by `Article` construction and append; `none`
when the iteration executed `continue`. -/
def processArticle (detail : String → DetailPage) (now : String)
    (info : ArticleInfo) : Option Article :=
  (processInfo detail info).map
    (fun i => Article.make now i.title i.kicker i.link i.image none)

/-- The exception escaping one scrape attempt: a `TimeoutException`
(listing navigation or readiness wait) or a `WebDriverException`. -/
inductive ScrapeError where
  | timeout
  | fault (msg : String)
deriving DecidableEq, Repr

/-- The browser environment of one attempt of `_scrape_with_selenium`:
outcome of `driver.get(base_url)`, outcome of the `WebDriverWait` for
`contenedor_dato_modulo`, the containers returned by `find_elements`,
the behaviour at each article URL, and the clock reading used for the
constructed Articles. -/
structure ListingEnv where
  nav : NavRes
  waitOk : Bool
  containers : List Node
  detail : String → DetailPage
  now : String

/-- Model of `_scrape_with_selenium` (line 129): listing navigation and
readiness wait re-raise `TimeoutException`/`WebDriverException`
(lines 136-151); then the listing loop builds `article_data` and the
second loop turns each record into an `Article` or skips it. -/
def scrape_with_selenium (env : ListingEnv) :
    Except ScrapeError (List Article) :=
  match env.nav with
  | .timeout => .error .timeout
  | .fault m => .error (.fault m)
  | .ok =>
      if env.waitOk then
        .ok ((extractListing env.containers).filterMap
              (processArticle env.detail env.now))
      else .error .timeout

/-- Value of `max_retries` as set in `NewsScraperProcessor.__init__` (line 42). -/
def max_retries : Nat := 3

/-- Value of `retry_delay` as set in `NewsScraperProcessor.__init__` (line 43). -/
def retry_delay : Nat := 5

/-- Observable trace of one `scrape_news` run: how many times
`_scrape_with_selenium` was invoked, the `time.sleep` calls in order
(each entry the slept duration), and the result (`ok` a returned list,
`error` a propagated exception). -/
structure RunTrace where
  attemptsMade : Nat
  sleeps : List Nat
  outcome : Except ScrapeError (List Article)
deriving Repr

/-- The `for attempt in range(self.max_retries)` loop of lines 84-98,
over the list of remaining attempt results.  A non-empty result
returns immediately; an empty result only logs a warning and moves on
(no sleep); an exception sleeps `retry_delay` and moves on when
further attempts remain (`attempt < self.max_retries - 1`, i.e. the
remainder list is non-empty) and re-raises otherwise; falling off the
loop returns `[]` (line 98). -/
def scrape_news_go (d : Nat) :
    List (Except ScrapeError (List Article)) → Nat → List Nat → RunTrace
  | [], made, sleeps => ⟨made, sleeps, .ok []⟩
  | r :: rest, made, sleeps =>
      match r with
      | .ok arts =>
          if arts.isEmpty then scrape_news_go d rest (made + 1) sleeps
          else ⟨made + 1, sleeps, .ok arts⟩
      | .error e =>
          match rest with
          | [] => ⟨made + 1, sleeps, .error e⟩
          | _ :: _ => scrape_news_go d rest (made + 1) (sleeps ++ [d])

/-- Model of `scrape_news` (line 82), abstracted over what attempt `i` of
`_scrape_with_selenium` does. -/
def scrape_news (attempt : Nat → Except ScrapeError (List Article))
    (retries d : Nat) : RunTrace :=
  scrape_news_go d ((List.range retries).map attempt) 0 []

/-- Composition of `scrape_news` with the full pipeline: attempt `i` runs
`_scrape_with_selenium` in environment `envs i` (a fresh driver each
time). -/
def scrape_news_full (envs : Nat → ListingEnv) (retries d : Nat) :
    RunTrace :=
  scrape_news (fun i => scrape_with_selenium (envs i)) retries d


/-! Concrete handles and environments used by counterexamples and
witnesses below. -/

/-- An element handle with no children and no attributes. -/
def wDummy : Node := .mk "" (fun _ => none) (fun _ _ => .notFound)

/-- An anchor element: text `"  T1  "`, `href` attribute `http://a`. -/
def wAEl : Node :=
  .mk "  T1  " (fun s => if s = "href" then some "http://a" else none)
    (fun _ _ => .notFound)

/-- A `titulo` element whose only child lookup that succeeds is the
nested anchor. -/
def wTEl : Node :=
  .mk "" (fun _ => none)
    (fun b v => if b = By.tagName ∧ v = "a" then .found wAEl else .notFound)

/-- A listing container with a resolvable title+link and no kicker
anywhere (every kicker selector reports not-found). -/
def wCont : Node :=
  .mk "" (fun _ => none)
    (fun b v =>
      if b = By.className ∧ v = "titulo" then .found wTEl else .notFound)

/-- The draft `wCont` produces: empty kicker, truthy link. -/
def wInfo : ArticleInfo := ⟨"T1", some "http://a", "", some ""⟩

/-- A draft that already has a kicker. -/
def wInfoK : ArticleInfo := ⟨"T2", some "http://b", "K", some ""⟩

/-- A detail-page environment whose navigation always times out. -/
def wDetailNavFail : String → DetailPage := fun _ => ⟨.timeout, false, wDummy⟩

/-- A listing environment: navigation and readiness succeed, one
container (`wCont`), every detail navigation times out. -/
def wEnvNavFail : ListingEnv := ⟨.ok, true, [wCont], wDetailNavFail, "t0"⟩

/-- A kicker element found on a detail page. -/
def wPageKick : Node := .mk " PageKick " (fun _ => none) (fun _ _ => .notFound)

/-- A detail page exposing a kicker via the last page-scoped selector. -/
def wPage : Node :=
  .mk "" (fun _ => none)
    (fun b v =>
      if b = By.cssSelector ∧ v = ".titulo_de_noticia .volanta_noticia" then
        .found wPageKick
      else .notFound)

/-- A detail-page environment where navigation and the readiness wait
succeed and the page is `wPage`. -/
def wDetailRec : String → DetailPage := fun _ => ⟨.ok, true, wPage⟩

/-- An already-built article used by orchestrator-level examples. -/
def wArticle : Article := ⟨"T", "K", some "http://a", some "", "t0"⟩

/-- An attempt sequence: first attempt returns zero articles, later
attempts return one article. -/
def wAttemptsSoftThenOk : Nat → Except ScrapeError (List Article) :=
  fun i => if i = 0 then .ok [] else .ok [wArticle]

/-- An image element that exists but has no `src` attribute. -/
def wImgNoSrc : Node := .mk " raw " (fun _ => none) (fun _ _ => .notFound)

/-- A container whose only `img` child is `wImgNoSrc`. -/
def wContNoSrc : Node :=
  .mk "" (fun _ => none)
    (fun b v =>
      if b = By.tagName ∧ v = "img" then .found wImgNoSrc else .notFound)

/-- An image element whose `src` attribute has surrounding whitespace. -/
def wImgWs : Node :=
  .mk "" (fun s => if s = "src" then some " http://img " else none)
    (fun _ _ => .notFound)

/-- A container whose only `img` child is `wImgWs`. -/
def wContWs : Node :=
  .mk "" (fun _ => none)
    (fun b v =>
      if b = By.tagName ∧ v = "img" then .found wImgWs else .notFound)

/-- A kicker element with non-empty stripped text. -/
def wKick6 : Node := .mk " K6 " (fun _ => none) (fun _ _ => .notFound)

/-- A kicker element a later strategy would match, demonstrating that
the scan never reaches it. -/
def wLater : Node := .mk "LATER" (fun _ => none) (fun _ _ => .notFound)

/-- A find capability for the short-circuit witness: the first
strategy is absent, the second matches `wKick6`, the third would match
`wLater`. -/
def wFind6 : By → String → FindRes := fun b v =>
  if b = By.className ∧ v = "volanta_noticia" then .found wKick6
  else if b = By.cssSelector ∧ v = "div.volanta" then .found wLater
  else .notFound

/-- An anchor element whose text strips to empty but whose `href`
resolves. -/
def wAElEmpty : Node :=
  .mk "   " (fun s => if s = "href" then some "http://e" else none)
    (fun _ _ => .notFound)

/-- A `titulo` element wrapping `wAElEmpty`. -/
def wTElEmpty : Node :=
  .mk "" (fun _ => none)
    (fun b v =>
      if b = By.tagName ∧ v = "a" then .found wAElEmpty else .notFound)

/-- A container whose resolved title strips to empty. -/
def wContEmptyTitle : Node :=
  .mk "" (fun _ => none)
    (fun b v =>
      if b = By.className ∧ v = "titulo" then .found wTElEmpty
      else .notFound)

/-- A listing-environment family in which every attempt faults on the
listing navigation with message `m`. -/
def wEnvsFault : Nat → ListingEnv :=
  fun _ => ⟨.fault "m", false, [], wDetailNavFail, "t0"⟩

/-! Helper lemmas about the retry loop. -/

/-- The attempt counter of the retry loop is bounded by the number of
remaining attempt results. -/
theorem scrape_news_go_attempts_le (d : Nat)
    (l : List (Except ScrapeError (List Article))) :
    ∀ (made : Nat) (sleeps : List Nat),
      (scrape_news_go d l made sleeps).attemptsMade ≤ made + l.length := by
  induction l with
  | nil => intro made sleeps; simp [scrape_news_go]
  | cons r rest ih =>
      intro made sleeps
      cases r with
      | ok arts =>
          by_cases h : arts.isEmpty
          · have h2 := ih (made + 1) sleeps
            simp only [List.length_cons] at h2 ⊢
            simp only [scrape_news_go]
            rw [if_pos h]
            omega
          · simp only [List.length_cons]
            simp only [scrape_news_go]
            rw [if_neg h]
            show made + 1 ≤ made + (rest.length + 1)
            omega
      | error e =>
          cases rest with
          | nil => simp [scrape_news_go]
          | cons r2 rest2 =>
              have h2 := ih (made + 1) (sleeps ++ [d])
              simp only [List.length_cons] at h2 ⊢
              show (scrape_news_go d (r2 :: rest2) (made + 1)
                  (sleeps ++ [d])).attemptsMade ≤
                made + (rest2.length + 1 + 1)
              omega

/-- A run whose every remaining attempt result is the empty list walks
through all of them, sleeps never, and ends with `.ok []`. -/
theorem scrape_news_go_all_soft (d : Nat)
    (l : List (Except ScrapeError (List Article)))
    (hall : ∀ r ∈ l, r = .ok []) :
    ∀ (made : Nat) (sleeps : List Nat),
      scrape_news_go d l made sleeps = ⟨made + l.length, sleeps, .ok []⟩ := by
  induction l with
  | nil => intro made sleeps; simp [scrape_news_go]
  | cons r rest ih =>
      intro made sleeps
      have hr : r = .ok [] := hall r (by simp)
      subst hr
      have h2 := ih (fun x hx => hall x (by simp [hx])) (made + 1) sleeps
      show scrape_news_go d rest (made + 1) sleeps =
        ⟨made + (rest.length + 1), sleeps, .ok []⟩
      rw [h2]
      have h3 : made + 1 + rest.length = made + (rest.length + 1) := by omega
      rw [h3]

/-! The claims. -/

/-- C10: every `Article` construction runs `__post_init__`, which
unconditionally overwrites `scrape_date` with the construction-time
clock reading: the resulting record is independent of the caller-passed
`scrape_date` argument and its timestamp equals the construction time. -/
theorem C10_post_init_overwrites_scrape_date (now t k : String)
    (l i : Option String) (d : Option String) :
    (Article.make now t k l i d).scrape_date = now ∧
    Article.make now t k l i d = Article.make now t k l i none ∧
    Article.make now t k l i d = ⟨t, k, l, i, now⟩ :=
  ⟨rfl, rfl, rfl⟩

/-- C9: in the image-type (`By.TAG_NAME`) branch, `_safe_find_element`
returns `element.get_attribute("src")` raw: a found element lacking the
attribute makes the call return Python `None` (not the supplied default
`"DEFAULT"`), and an attribute value with surrounding whitespace is
returned untrimmed — the return value is not always a string. -/
theorem C9_tag_name_branch_returns_raw_src :
    safe_find_element wContNoSrc By.tagName "img" "DEFAULT" = none ∧
    safe_find_element wContWs By.tagName "img" "DEFAULT" =
      some " http://img " :=
  ⟨rfl, rfl⟩

/-- C5: for every container handle and lookup, `_safe_find_element`
coincides with the spec-modelled field extractor: found elements give
their stripped text (their raw `src` attribute for tag-name lookups),
while a not-found signal and any other fault both give the supplied
default — no outcome raises. -/
theorem C5_field_extractor_refines_spec (c : Node) (b : By)
    (v dflt : String) :
    safe_find_element c b v dflt = extractFieldSpec c b v dflt := by
  cases hf : c.find b v <;> cases b <;>
    simp [safe_find_element, extractFieldSpec, hf]

/-- C3: the orchestrator invokes the extraction pipeline at most
`retries` times, and an attempt returning a non-empty article sequence
ends the loop immediately: whatever attempt results would have
followed, the trace records one more invocation, no further sleep, and
that sequence as the outcome. -/
theorem C3_attempt_bound_and_immediate_success
    (attempt : Nat → Except ScrapeError (List Article)) (retries d : Nat)
    (arts : List Article)
    (rest : List (Except ScrapeError (List Article)))
    (made : Nat) (sleeps : List Nat) :
    (scrape_news attempt retries d).attemptsMade ≤ retries ∧
    (arts ≠ [] →
      scrape_news_go d (.ok arts :: rest) made sleeps =
        ⟨made + 1, sleeps, .ok arts⟩) := by
  constructor
  · have h := scrape_news_go_attempts_le d
      ((List.range retries).map attempt) 0 []
    simpa [scrape_news] using h
  · intro h
    cases arts with
    | nil => exact absurd rfl h
    | cons a as => simp [scrape_news_go]

/-- Witness for C3 at a concrete attempt sequence. -/
theorem C3_attempt_bound_witness :
    (scrape_news wAttemptsSoftThenOk 3 5).attemptsMade ≤ 3 ∧
    scrape_news_go 5 [.ok [wArticle]] 0 [] = ⟨1, [], .ok [wArticle]⟩ := by
  have h := C3_attempt_bound_and_immediate_success wAttemptsSoftThenOk 3 5
    [wArticle] [] 0 []
  exact ⟨h.1, h.2 (by simp)⟩

/-- C2 counterexample: with the first attempt returning zero articles
and the second attempt succeeding, the run does retry (two invocations)
but records no `time.sleep` at all, while the claim requires the fixed
inter-retry delay (`sleeps = [5]`) before the next attempt: the delay
is executed only on the exception path, lines 92-94. -/
theorem C2_counterexample :
    scrape_news wAttemptsSoftThenOk 3 5 = ⟨2, [], .ok [wArticle]⟩ ∧
    (scrape_news wAttemptsSoftThenOk 3 5).sleeps ≠ [5] :=
  ⟨rfl, by decide⟩

/-- C2 amended: a zero-article attempt is a soft failure retried up to
the same attempt bound as an exception but with no inter-retry delay
(the `time.sleep` only follows an exception), and a run whose every
attempt yields zero articles returns the empty sequence after all
`retries` invocations instead of raising. -/
theorem C2_soft_failure_retried_without_delay
    (d : Nat) (rest : List (Except ScrapeError (List Article)))
    (made : Nat) (sleeps : List Nat)
    (attempt : Nat → Except ScrapeError (List Article)) (retries : Nat) :
    scrape_news_go d (.ok [] :: rest) made sleeps =
      scrape_news_go d rest (made + 1) sleeps ∧
    ((∀ i, i < retries → attempt i = .ok []) →
      scrape_news attempt retries d = ⟨retries, [], .ok []⟩) := by
  constructor
  · rfl
  · intro hall
    have hl : ∀ r ∈ (List.range retries).map attempt, r = .ok [] := by
      intro r hr
      rcases List.mem_map.mp hr with ⟨i, hi, rfl⟩
      exact hall i (List.mem_range.mp hi)
    have h := scrape_news_go_all_soft d ((List.range retries).map attempt)
      hl 0 []
    simpa [scrape_news] using h

/-- Witness for C2 at a concrete all-soft attempt sequence. -/
theorem C2_soft_failure_witness :
    scrape_news_go 5 [.ok []] 0 [] = scrape_news_go 5 [] 1 [] ∧
    scrape_news (fun _ => .ok []) 2 5 = ⟨2, [], .ok []⟩ := by
  have h := C2_soft_failure_retried_without_delay 5 [] 0 []
    (fun _ => .ok []) 2
  exact ⟨h.1, h.2 (fun i _ => rfl)⟩

/-- C4: with three attempts all faulting on the listing navigation, the
orchestrator re-raises the exception of the last attempt after exactly
three pipeline invocations and exactly two inter-attempt sleeps of the
retry delay each (none after the final failed attempt). -/
theorem C4_all_fault_exhaustion (envs : Nat → ListingEnv) (d : Nat)
    (m0 m1 m2 : String)
    (h0 : (envs 0).nav = .fault m0) (h1 : (envs 1).nav = .fault m1)
    (h2 : (envs 2).nav = .fault m2) :
    scrape_news_full envs 3 d = ⟨3, [d, d], .error (.fault m2)⟩ := by
  have e0 : scrape_with_selenium (envs 0) = .error (.fault m0) := by
    simp [scrape_with_selenium, h0]
  have e1 : scrape_with_selenium (envs 1) = .error (.fault m1) := by
    simp [scrape_with_selenium, h1]
  have e2 : scrape_with_selenium (envs 2) = .error (.fault m2) := by
    simp [scrape_with_selenium, h2]
  have hr : List.range 3 = [0, 1, 2] := rfl
  simp [scrape_news_full, scrape_news, hr, e0, e1, e2, scrape_news_go]

/-- Witness for C4 at a concrete environment family. -/
theorem C4_all_fault_exhaustion_witness :
    scrape_news_full wEnvsFault 3 7 = ⟨3, [7, 7], .error (.fault "m")⟩ :=
  C4_all_fault_exhaustion wEnvsFault 7 "m" "m" "m" rfl rfl rfl

/-- C6: the kicker fallback scan short-circuits: when every strategy of
the prefix `l1` is either absent (not-found) or yields empty stripped
text, and the next strategy yields a found element with non-empty
stripped text, the scan returns that text whatever the remaining
strategies `l2` would do — no later strategy is evaluated.  This is the
loop shape shared by the container-scoped scan (lines 185-193) and the
page-scoped scan (lines 231-239). -/
theorem C6_fallback_short_circuit (find : By → String → FindRes)
    (l1 l2 : List (By × String)) (b : By) (v : String) (e : Node)
    (hpre : ∀ p ∈ l1, find p.1 p.2 = .notFound ∨
      ∃ e0, find p.1 p.2 = .found e0 ∧ pyStrip e0.text = "")
    (hfind : find b v = .found e) (hne : pyStrip e.text ≠ "") :
    scanKickers find (l1 ++ (b, v) :: l2) = .ok (pyStrip e.text) := by
  induction l1 with
  | nil => simp [scanKickers, hfind, hne]
  | cons p ps ih =>
      have hih := ih (fun q hq => hpre q (by simp [hq]))
      rcases hpre p (by simp) with hnf | ⟨e0, hf0, he0⟩
      · cases p with
        | mk pb pv =>
            simp only [List.cons_append, scanKickers]
            rw [hnf]
            exact hih
      · cases p with
        | mk pb pv =>
            simp only [List.cons_append, scanKickers]
            rw [hf0]
            show (if pyStrip e0.text = "" then
                scanKickers find (ps ++ (b, v) :: l2)
              else Except.ok (pyStrip e0.text)) = Except.ok (pyStrip e.text)
            rw [if_pos he0]
            exact hih

/-- Witness for C6: the first strategy is absent, the second matches
with text that strips to `K6`, and the third would match `LATER` but
is never consulted. -/
theorem C6_fallback_short_circuit_witness :
    scanKickers wFind6
      ([(By.className, "volanta")] ++
        (By.className, "volanta_noticia") :: [(By.cssSelector, "div.volanta")]) =
      .ok "K6" :=
  C6_fallback_short_circuit wFind6 [(By.className, "volanta")]
    [(By.cssSelector, "div.volanta")] By.className "volanta_noticia" wKick6
    (by
      intro p hp
      simp only [List.mem_singleton] at hp
      subst hp
      exact Or.inl rfl)
    rfl (by decide)

/-- C7: title and link come from the single fixed nested lookup
`container.find_element(By.CLASS_NAME, "titulo").find_element(By.TAG_NAME, "a")`
with no fallback chain: if either step signals not-found or faults, the
item is excluded from the result, and when both steps resolve but the
title strips to empty the item is excluded as well, even though its
link resolved. -/
theorem C7_title_link_mandatory (c : Node) :
    (c.find By.className "titulo" = .notFound → extractItem c = none) ∧
    (c.find By.className "titulo" = .fault → extractItem c = none) ∧
    ∀ tEl, c.find By.className "titulo" = .found tEl →
      ((tEl.find By.tagName "a" = .notFound → extractItem c = none) ∧
       (tEl.find By.tagName "a" = .fault → extractItem c = none) ∧
       ∀ aEl, tEl.find By.tagName "a" = .found aEl →
         pyStrip aEl.text = "" → extractItem c = none) := by
  refine ⟨fun h => ?_, fun h => ?_,
    fun tEl ht => ⟨fun h => ?_, fun h => ?_, fun aEl ha he => ?_⟩⟩
  · simp [extractItem, h]
  · simp [extractItem, h]
  · simp [extractItem, ht, h]
  · simp [extractItem, ht, h]
  · simp [extractItem, ht, ha, he]

/-- Witness for C7: a container whose nested title lookup resolves an
anchor with a link but whitespace-only text is skipped. -/
theorem C7_title_link_mandatory_witness : extractItem wContEmptyTitle = none := by
  have h := (C7_title_link_mandatory wContEmptyTitle).2.2 wTElEmpty rfl
  exact h.2.2 wAElEmpty rfl (by decide)

/-- C1 counterexample: one listing container yields the draft `wInfo`
with empty kicker and a truthy link; its detail-page navigation times
out; the attempt completes without raising, but the returned batch is
empty — the draft did not yield an Article, contradicting the claim
that a draft with failed recovery still yields a final Article and is
not removed from the returned batch. -/
theorem C1_counterexample :
    extractListing wEnvNavFail.containers = [wInfo] ∧
    wInfo.kicker = "" ∧ optTruthy wInfo.link = true ∧
    (wDetailNavFail (linkStr wInfo.link)).nav = .timeout ∧
    scrape_with_selenium wEnvNavFail = .ok [] :=
  ⟨rfl, rfl, rfl, rfl, rfl⟩

/-- C1 amended: when a draft needing recovery hits a navigation
timeout, a navigation fault, or a readiness-wait timeout on its detail
page, no exception propagates and the rest of the batch is processed
unchanged, but that draft is skipped entirely: it yields no Article
and is removed from the returned batch (the `continue` statements at
lines 211, 214 and 222 skip the Article construction). -/
theorem C1_detail_failure_drops_article (detail : String → DetailPage)
    (now : String) (info : ArticleInfo) (l1 l2 : List ArticleInfo)
    (hk : info.kicker = "") (hl : optTruthy info.link = true)
    (hfail : (detail (linkStr info.link)).nav = .timeout ∨
      (∃ m, (detail (linkStr info.link)).nav = .fault m) ∨
      (detail (linkStr info.link)).waitOk = false) :
    processArticle detail now info = none ∧
    List.filterMap (processArticle detail now) (l1 ++ info :: l2) =
      List.filterMap (processArticle detail now) l1 ++
      List.filterMap (processArticle detail now) l2 := by
  have hni : processInfo detail info = none := by
    simp only [processInfo, if_pos (And.intro hk hl)]
    rcases hfail with h | ⟨m, h⟩ | h
    · simp [recoverOnPage, h]
    · simp [recoverOnPage, h]
    · cases hnav : (detail (linkStr info.link)).nav with
      | ok => simp [recoverOnPage, hnav, h]
      | timeout => simp [recoverOnPage, hnav]
      | fault m => simp [recoverOnPage, hnav]
  have hna : processArticle detail now info = none := by
    simp [processArticle, hni]
  exact ⟨hna, by simp [List.filterMap_append, List.filterMap_cons, hna]⟩

/-- Witness for C1 amended: the draft `wInfo` against an environment
whose detail navigation times out, inside a batch ending with a draft
that needs no recovery. -/
theorem C1_detail_failure_witness :
    processArticle wDetailNavFail "t0" wInfo = none ∧
    List.filterMap (processArticle wDetailNavFail "t0")
        ([] ++ wInfo :: [wInfoK]) =
      List.filterMap (processArticle wDetailNavFail "t0") [] ++
      List.filterMap (processArticle wDetailNavFail "t0") [wInfoK] :=
  C1_detail_failure_drops_article wDetailNavFail "t0" wInfo [] [wInfoK]
    rfl rfl (Or.inl rfl)

/-- A kept listing item stores exactly the container-scoped scan result
as its kicker: `extractItem c = some info` forces the scan to have
completed with `info.kicker`. -/
theorem extractItem_kicker_scan (c : Node) (info : ArticleInfo)
    (h : extractItem c = some info) :
    scanKickers c.find kicker_selectors = .ok info.kicker := by
  cases h1 : c.find By.className "titulo" with
  | notFound => simp [extractItem, h1] at h
  | fault => simp [extractItem, h1] at h
  | found tEl =>
    cases h2 : tEl.find By.tagName "a" with
    | notFound => simp [extractItem, h1, h2] at h
    | fault => simp [extractItem, h1, h2] at h
    | found aEl =>
      by_cases h3 : pyStrip aEl.text = ""
      · simp [extractItem, h1, h2, h3] at h
      · cases h4 : scanKickers c.find kicker_selectors with
        | error u => simp [extractItem, h1, h2, h3, h4] at h
        | ok k =>
            simp [extractItem, h1, h2, h3, h4] at h
            rw [← h]

/-- C8: recovery is consulted exactly under the guard of line 204 —
when the listing-phase kicker is empty and the link is truthy the item
goes through the detail-page recovery routine at its link, while a
draft with a non-empty kicker or a falsy link passes through unchanged
whatever the detail environment does — and, for a draft kept by the
listing phase that survives to an output record, the output kicker is
empty iff the container-scoped scan came back empty and, whenever the
recovery guard held, the page-scoped scan on the navigated detail page
came back empty too. -/
theorem C8_recovery_guard_and_kicker_emptiness
    (detail : String → DetailPage) (c : Node) (info : ArticleInfo) :
    (info.kicker = "" ∧ optTruthy info.link = true →
      processInfo detail info =
        recoverOnPage (detail (linkStr info.link)) info) ∧
    (¬(info.kicker = "" ∧ optTruthy info.link = true) →
      processInfo detail info = some info) ∧
    (∀ out, extractItem c = some info → processInfo detail info = some out →
      (out.kicker = "" ↔
        (scanKickers c.find kicker_selectors = .ok "" ∧
          (info.kicker = "" ∧ optTruthy info.link = true →
            scanKickers ((detail (linkStr info.link)).page.find)
              article_kicker_selectors = .ok "")))) := by
  refine ⟨fun hg => ?_, ?_, ?_⟩
  · simp [processInfo, hg]
  · intro hng
    simp [processInfo, hng]
  · intro out hext hproc
    have hscan := extractItem_kicker_scan c info hext
    by_cases hc : info.kicker = "" ∧ optTruthy info.link = true
    · obtain ⟨hk, hl⟩ := hc
      simp only [processInfo, if_pos (And.intro hk hl)] at hproc
      cases hnav : (detail (linkStr info.link)).nav with
      | timeout => rw [recoverOnPage, hnav] at hproc; simp at hproc
      | fault m => rw [recoverOnPage, hnav] at hproc; simp at hproc
      | ok =>
        rw [recoverOnPage, hnav] at hproc
        by_cases hw : (detail (linkStr info.link)).waitOk = true
        · rw [if_pos hw] at hproc
          cases hps : scanKickers ((detail (linkStr info.link)).page.find)
              article_kicker_selectors with
          | error u => rw [hps] at hproc; simp at hproc
          | ok k =>
            rw [hps] at hproc
            simp only [Option.some.injEq] at hproc
            subst hproc
            simp only [hps, hscan, hk, Except.ok.injEq, true_and]
            by_cases hke : k = ""
            · simp [hke, hk]
            · simp [hke]
              exact hl
        · rw [if_neg hw] at hproc
          simp at hproc
    · simp only [processInfo, if_neg hc] at hproc
      simp only [Option.some.injEq] at hproc
      subst hproc
      constructor
      · intro hek
        exact ⟨by rw [hscan, hek], fun hcc => absurd hcc hc⟩
      · rintro ⟨hs, -⟩
        have h5 := hscan.symm.trans hs
        simpa using h5

/-- Witness for C8: a draft with a kicker passes through recovery
untouched, and the record produced from `wCont` (container scan empty,
recovery run on `wPage` finding `PageKick`) has a non-empty kicker iff
the page-scoped scan found something. -/
theorem C8_recovery_guard_witness :
    processInfo wDetailRec wInfo =
      recoverOnPage (wDetailRec (linkStr wInfo.link)) wInfo ∧
    processInfo wDetailRec wInfoK = some wInfoK ∧
    ((⟨"T1", some "http://a", "PageKick", some ""⟩ : ArticleInfo).kicker = ""
      ↔ (scanKickers wCont.find kicker_selectors = .ok "" ∧
        (wInfo.kicker = "" ∧ optTruthy wInfo.link = true →
          scanKickers ((wDetailRec (linkStr wInfo.link)).page.find)
            article_kicker_selectors = .ok ""))) :=
  ⟨(C8_recovery_guard_and_kicker_emptiness wDetailRec wCont wInfo).1
      (by decide),
   (C8_recovery_guard_and_kicker_emptiness wDetailRec wDummy wInfoK).2.1
      (by decide),
   (C8_recovery_guard_and_kicker_emptiness wDetailRec wCont wInfo).2.2
      ⟨"T1", some "http://a", "PageKick", some ""⟩ (by decide) (by decide)⟩

end Scraper
